import Mathlib

/-!
Shallow embedding of the Ethereum Bridge Pool validity predicate
(`shared/src/ledger/native_vp/ethereum_bridge/bridge_pool_vp.rs`).

The VP works over two storage snapshots (pre and post transaction) plus a
set of changed keys.  The supporting data types (`Amount`, `Address`,
storage keys, `PendingTransfer`) live in crates that are not part of the
sources here; they are modelled from the spec, faithfully to the shapes the
VP code relies on.  All functions of the VP itself are translated directly
from the Rust source.
-/

namespace BridgePool

/-- Modelled from the spec: token amounts are unsigned fixed-width
integers (the source uses a 256-bit unsigned `Amount`).  We represent the
value as a natural number; the width only matters for checked addition. -/
abbrev Amount := Nat

/-- Modelled from the spec: the largest representable token amount
(256-bit unsigned arithmetic). -/
def amountMaxBound : Nat := 2 ^ 256 - 1

/-- Modelled from the spec: overflow-checked addition on amounts, `none`
on overflow (mirrors `Amount::checked_add`). -/
def Amount.checked_add (a b : Amount) : Option Amount :=
  if a + b ≤ amountMaxBound then some (a + b) else none

/-- Modelled from the spec: a 20-byte Ethereum address, abstracted to a
tag that supports decidable equality. -/
structure EthAddress where
  tag : Nat
deriving DecidableEq, Repr

/-- Modelled from the spec: the internal addresses the bridge pool VP
distinguishes — the Ethereum bridge account, the bridge pool account, the
wrapped ERC20 token accounts and the NUT token accounts. -/
inductive InternalAddress where
  | EthBridge
  | EthBridgePool
  | Erc20 (asset : EthAddress)
  | Nut (asset : EthAddress)
  | OtherInternal (tag : Nat)
deriving DecidableEq, Repr

/-- Modelled from the spec: chain addresses — established/implicit user
accounts abstracted to a tag, plus the internal addresses. -/
inductive Address where
  | Established (tag : Nat)
  | Internal (ia : InternalAddress)
deriving DecidableEq, Repr

/-- The Ethereum bridge account (`BRIDGE_ADDRESS` in the source). -/
def BRIDGE_ADDRESS : Address := Address.Internal InternalAddress.EthBridge

/-- The bridge pool account (`BRIDGE_POOL_ADDRESS` in the source). -/
def BRIDGE_POOL_ADDRESS : Address :=
  Address.Internal InternalAddress.EthBridgePool

/-- Modelled from the spec: `wrapped_erc20s::token`, the address of the
wrapped ERC20 token ledger for an Ethereum asset. -/
def wrapped_erc20s_token (asset : EthAddress) : Address :=
  Address.Internal (InternalAddress.Erc20 asset)

/-- Modelled from the spec: `wrapped_erc20s::nut`, the address of the
non-transferable (NUT) token ledger for an Ethereum asset. -/
def wrapped_erc20s_nut (asset : EthAddress) : Address :=
  Address.Internal (InternalAddress.Nut asset)

/-- Kind of a transfer to Ethereum: wrapped ERC20 or NUT. -/
inductive TransferToEthereumKind where
  | Erc20
  | Nut
deriving DecidableEq, Repr

/-- The value-transfer half of a pending transfer. -/
structure TransferToEthereum where
  kind : TransferToEthereumKind
  asset : EthAddress
  recipient : EthAddress
  sender : Address
  amount : Amount
deriving DecidableEq, Repr

/-- The gas-fee half of a pending transfer. -/
structure GasFee where
  token : Address
  amount : Amount
  payer : Address
deriving DecidableEq, Repr

/-- A pending transfer of value from the native chain to Ethereum. -/
structure PendingTransfer where
  transfer : TransferToEthereum
  gas_fee : GasFee
deriving DecidableEq, Repr

/-- Modelled from the spec: `PendingTransfer::token_address`, the wrapped
token ledger the transferred asset lives in — the ERC20 ledger for an
`Erc20` kind, the NUT ledger for a `Nut` kind. -/
def PendingTransfer.token_address (t : PendingTransfer) : Address :=
  match t.transfer.kind with
  | TransferToEthereumKind.Erc20 => wrapped_erc20s_token t.transfer.asset
  | TransferToEthereumKind.Nut => wrapped_erc20s_nut t.transfer.asset

/-- Modelled from the spec: the storage keys the bridge pool VP touches —
token balance keys, the bridge pool's pending-transfer keys (derived from
the transfer's content), other keys under the bridge pool address space,
the wNAM whitelist configuration keys, and everything else. -/
inductive Key where
  | balance (token : Address) (owner : Address)
  | bridgePoolPending (t : PendingTransfer)
  | bridgePoolOther (tag : Nat)
  | wnamWhitelisted (asset : EthAddress)
  | wnamCap (asset : EthAddress)
  | other (tag : Nat)
deriving DecidableEq, Repr

/-- Modelled from the spec: `balance_key`, the storage key of `owner`'s
balance of `token`. -/
def balance_key (token owner : Address) : Key := Key.balance token owner

/-- Modelled from the spec: `get_pending_key`, the canonical bridge pool
key of a pending transfer, derived deterministically from its content. -/
def get_pending_key (t : PendingTransfer) : Key := Key.bridgePoolPending t

/-- Modelled from the spec: `is_bridge_pool_key`, whether a key lies in
the bridge pool's key namespace. -/
def is_bridge_pool_key : Key → Bool
  | Key.bridgePoolPending _ => true
  | Key.bridgePoolOther _ => true
  | _ => false

/-- Outcome of a storage read: backend/decode failure, absent value, or a
present value (mirrors `Result<Option<T>, Error>` of the reader API). -/
inductive Read (α : Type) where
  | err
  | absent
  | value (a : α)
deriving DecidableEq, Repr

/-- Modelled from the spec: the VP context — the native token address, the
pre/post storage views (keyed by the typed keys the VP reads), and the
native ERC20 (wNAM) parameter. -/
structure Ctx where
  native_token : Address
  balance_pre : Address → Address → Read Amount
  balance_post : Address → Address → Read Amount
  pending_pre : PendingTransfer → Read PendingTransfer
  pending_post : PendingTransfer → Read PendingTransfer
  whitelisted_pre : EthAddress → Read Bool
  cap_pre : EthAddress → Read Amount
  native_erc20 : Read EthAddress

/-- A positive or negative amount (source: `SignedAmount`). -/
inductive SignedAmount where
  | Positive (a : Amount)
  | Negative (a : Amount)
deriving DecidableEq, Repr

/-- An `Amount` that has been updated with some delta value
(source: `AmountDelta`). -/
structure AmountDelta where
  base : Amount
  delta : SignedAmount
deriving DecidableEq, Repr

/-- Resolve the updated amount by applying the delta value
(source: `AmountDelta::resolve`). -/
def AmountDelta.resolve (d : AmountDelta) : Amount :=
  match d.delta with
  | SignedAmount.Positive a => d.base + a
  | SignedAmount.Negative a => d.base - a

/-- The pre-state balance read of `account_balance_delta`: a read error
yields `none` (the `.ok()?` chain), an absent balance defaults to zero. -/
def readPreBalance (ctx : Ctx) (token address : Address) : Option Amount :=
  match ctx.balance_pre token address with
  | Read.err => none
  | Read.absent => some 0
  | Read.value v => some v

/-- The post-state balance read of `account_balance_delta`: a read error
is treated as an absent value, and an absent value yields `none`. -/
def readPostBalance (ctx : Ctx) (token address : Address) : Option Amount :=
  match ctx.balance_post token address with
  | Read.err => none
  | Read.absent => none
  | Read.value v => some v

/-- Get the change in the balance of an account associated with an
address (source: `account_balance_delta`). -/
def account_balance_delta (ctx : Ctx) (token address : Address) :
    Option AmountDelta := do
  let before ← readPreBalance ctx token address
  let after ← readPostBalance ctx token address
  pure { base := before
         delta :=
           if before > after then SignedAmount.Negative (before - after)
           else SignedAmount.Positive (after - before) }

/-- Helper struct for handling the different escrow checking scenarios
(source: `EscrowDelta`; the phantom kind tag is compile-time only and is
dropped). -/
structure EscrowDelta where
  token : Address
  payer_account : Address
  escrow_account : Address
  expected_debit : Amount
  expected_credit : Amount
  transferred_amount : Amount
deriving DecidableEq, Repr

/-- Check that the correct amount of tokens were sent from the correct
account into escrow, and return the updated escrow balance
(source: `check_escrowed_toks_balance`).  The match arms follow the
source's order. -/
def check_escrowed_toks_balance (ctx : Ctx) (d : EscrowDelta) :
    Except Unit (Option AmountDelta) :=
  let debit := account_balance_delta ctx d.token d.payer_account
  let credit := account_balance_delta ctx d.token d.escrow_account
  match debit, credit with
  | some { base := _, delta := SignedAmount.Negative db },
    some { base := eb, delta := SignedAmount.Positive cr } =>
    Except.ok
      (if db = d.expected_debit ∧ cr = d.expected_credit then
         some { base := eb, delta := SignedAmount.Positive cr }
       else none)
  | some { base := _, delta := SignedAmount.Positive _ }, _ =>
    Except.ok none
  | _, some { base := _, delta := SignedAmount.Negative _ } =>
    Except.ok none
  | none, _ => Except.error ()
  | _, none => Except.error ()

/-- Check that the correct amount of tokens were sent from the correct
account into escrow (source: `check_escrowed_toks`). -/
def check_escrowed_toks (ctx : Ctx) (d : EscrowDelta) : Except Unit Bool :=
  (check_escrowed_toks_balance ctx d).map Option.isSome

/-- Whether an address is a NUT token ledger (the source inlines this as
a `matches!` on `InternalAddress::Nut`). -/
def isNutAddress : Address → Bool
  | Address.Internal (InternalAddress.Nut _) => true
  | _ => false

/-- Check that the gas was correctly escrowed
(source: `check_gas_escrow`). -/
def check_gas_escrow (ctx : Ctx) (wnam_address : EthAddress)
    (_transfer : PendingTransfer) (gas_check : EscrowDelta) :
    Except Unit Bool :=
  if gas_check.token = wrapped_erc20s_token wnam_address then
    Except.ok false
  else if isNutAddress gas_check.token then
    Except.ok false
  else
    check_escrowed_toks ctx gas_check

/-- The wNAM whitelist flag read of `check_wnam_escrow`: a read error
propagates, an absent flag defaults to `false`. -/
def readWhitelistedPre (ctx : Ctx) (asset : EthAddress) : Except Unit Bool :=
  match ctx.whitelisted_pre asset with
  | Read.err => Except.error ()
  | Read.absent => Except.ok false
  | Read.value b => Except.ok b

/-- The wNAM cap read of `check_wnam_escrow`: a read error propagates, an
absent cap defaults to zero. -/
def readCapPre (ctx : Ctx) (asset : EthAddress) : Except Unit Amount :=
  match ctx.cap_pre asset with
  | Read.err => Except.error ()
  | Read.absent => Except.ok 0
  | Read.value a => Except.ok a

/-- Validate a wrapped NAM transfer to Ethereum
(source: `check_wnam_escrow`). -/
def check_wnam_escrow (ctx : Ctx) (wnam_address : EthAddress)
    (transfer : PendingTransfer) (token_check : EscrowDelta) :
    Except Unit Bool :=
  if transfer.transfer.kind = TransferToEthereumKind.Nut then
    Except.ok false
  else
    match readWhitelistedPre ctx wnam_address with
    | Except.error e => Except.error e
    | Except.ok wnam_whitelisted =>
      if !wnam_whitelisted then
        Except.ok false
      else
        match check_escrowed_toks_balance ctx token_check with
        | Except.error e => Except.error e
        | Except.ok none => Except.ok false
        | Except.ok (some balance) =>
          let escrowed_balance := balance.resolve
          match readCapPre ctx wnam_address with
          | Except.error e => Except.error e
          | Except.ok wnam_cap =>
            if escrowed_balance > wnam_cap then Except.ok false
            else Except.ok true

/-- Sum gas and token amounts on a pending transfer, checking for
overflows (source: `sum_gas_and_token_amounts`). -/
def sum_gas_and_token_amounts (t : PendingTransfer) : Except Unit Amount :=
  match Amount.checked_add t.gas_fee.amount t.transfer.amount with
  | some s => Except.ok s
  | none => Except.error ()

/-- The `same_debited_address` condition of `determine_escrow_checks`:
the gas fee payer and token sender coincide, and the underlying
transferred assets coincide (either both are the native asset, or the
same wrapped ERC20/NUT asset). -/
def same_debited_address (ctx : Ctx) (wnam_address : EthAddress)
    (t : PendingTransfer) : Bool :=
  decide (t.gas_fee.payer = t.transfer.sender) &&
    ((decide (t.gas_fee.token = ctx.native_token) &&
      decide (t.transfer.asset = wnam_address)) ||
     decide (t.token_address = t.gas_fee.token))

/-- The `same_credited_address` condition of `determine_escrow_checks`:
the gas token and the transferred token are the same wrapped ERC20/NUT
asset. -/
def same_credited_address (t : PendingTransfer) : Bool :=
  decide (t.token_address = t.gas_fee.token)

/-- The expected debit amounts of `determine_escrow_checks`: a combined
overflow-checked sum when gas and tokens are debited from the same
address, independent per-leg amounts otherwise. -/
def expected_debits (ctx : Ctx) (wnam_address : EthAddress)
    (t : PendingTransfer) : Except Unit (Amount × Amount) :=
  if same_debited_address ctx wnam_address t then
    match sum_gas_and_token_amounts t with
    | Except.error e => Except.error e
    | Except.ok debit => Except.ok (debit, debit)
  else
    Except.ok (t.gas_fee.amount, t.transfer.amount)

/-- The expected credit amounts of `determine_escrow_checks`: a combined
overflow-checked sum when gas and tokens are credited to the same
address, independent per-leg amounts otherwise. -/
def expected_credits (t : PendingTransfer) :
    Except Unit (Amount × Amount) :=
  if same_credited_address t then
    match sum_gas_and_token_amounts t with
    | Except.error e => Except.error e
    | Except.ok credit => Except.ok (credit, credit)
  else
    Except.ok (t.gas_fee.amount, t.transfer.amount)

/-- There are two checks we must do when minting wNAM: the gas fee
escrow and the token escrow (source: `EscrowCheck`). -/
structure EscrowCheck where
  gas_check : EscrowDelta
  token_check : EscrowDelta
deriving DecidableEq, Repr

/-- Determine the debit and credit amounts that should be checked
(source: `determine_escrow_checks`). -/
def determine_escrow_checks (ctx : Ctx) (wnam_address : EthAddress)
    (transfer : PendingTransfer) : Except Unit EscrowCheck :=
  match expected_debits ctx wnam_address transfer with
  | Except.error e => Except.error e
  | Except.ok (expected_gas_debit, expected_token_debit) =>
    match expected_credits transfer with
    | Except.error e => Except.error e
    | Except.ok (expected_gas_credit, expected_token_credit) =>
      let (token_check_addr, token_check_escrow_acc) :=
        if transfer.transfer.asset = wnam_address then
          (ctx.native_token, BRIDGE_ADDRESS)
        else
          (transfer.token_address, BRIDGE_POOL_ADDRESS)
      Except.ok
        { gas_check :=
            { token := transfer.gas_fee.token
              payer_account := transfer.gas_fee.payer
              escrow_account := BRIDGE_POOL_ADDRESS
              expected_debit := expected_gas_debit
              expected_credit := expected_gas_credit
              transferred_amount := transfer.gas_fee.amount }
          token_check :=
            { token := token_check_addr
              payer_account := transfer.transfer.sender
              escrow_account := token_check_escrow_acc
              expected_debit := expected_token_debit
              expected_credit := expected_token_credit
              transferred_amount := transfer.transfer.amount } }

/-- Check if the amount transferred to escrow is nil
(source: `EscrowDelta::transferred_amount_is_nil`). -/
def EscrowDelta.transferred_amount_is_nil (d : EscrowDelta) : Bool :=
  decide (d.transferred_amount = 0)

/-- Check if all required escrow keys in `changed_keys` were modified
(source: `EscrowDelta::check_escrow_keys_changed`). -/
def EscrowDelta.check_escrow_keys_changed (d : EscrowDelta)
    (changed_keys : List Key) : Bool :=
  let owner_key := balance_key d.token d.payer_account
  let escrow_key := balance_key d.token d.escrow_account
  decide (owner_key ∈ changed_keys) && decide (escrow_key ∈ changed_keys)

/-- Check if no escrow keys in `changed_keys` were modified
(source: `EscrowDelta::check_escrow_keys_unchanged`). -/
def EscrowDelta.check_escrow_keys_unchanged (d : EscrowDelta)
    (changed_keys : List Key) : Bool :=
  let owner_key := balance_key d.token d.payer_account
  let escrow_key := balance_key d.token d.escrow_account
  !decide (owner_key ∈ changed_keys) && !decide (escrow_key ∈ changed_keys)

/-- Validate an `EscrowDelta` against the changed keys: a nil transfer
must touch no escrow key, a non-nil transfer must touch both
(source: `EscrowDelta::validate`). -/
def EscrowDelta.validate (d : EscrowDelta) (changed_keys : List Key) :
    Bool :=
  if d.transferred_amount_is_nil then
    d.check_escrow_keys_unchanged changed_keys
  else
    d.check_escrow_keys_changed changed_keys

/-- Validate both legs of an `EscrowCheck` against the changed keys
(source: `EscrowCheck::validate`). -/
def EscrowCheck.validate (c : EscrowCheck) (changed_keys : List Key) :
    Bool :=
  c.gas_check.validate changed_keys && c.token_check.validate changed_keys

/-- The transaction data handed to the VP: missing data and
undecodable data are distinguished from a decoded pending transfer. -/
inductive TxData where
  | noData
  | undecodable
  | decoded (t : PendingTransfer)
deriving DecidableEq, Repr

/-- Modelled from the spec: `read_native_erc20_address`, the parameter
read of the wNAM Ethereum address from pre-state; failure to read it is
an error. -/
def read_native_erc20_address (ctx : Ctx) : Except Unit EthAddress :=
  match ctx.native_erc20 with
  | Read.value a => Except.ok a
  | _ => Except.error ()

/-- The bridge pool validity predicate entry point
(source: `validate_tx`).  The branches follow the source's order:
missing/undecodable tx data errors; a duplicate pending transfer
rejects; an unreadable pending key errors; touching any other bridge
pool key rejects; a missing post-state pool entry errors; a pool entry
differing from the claimed transfer rejects; then the escrow checks
run. -/
def validate_tx (ctx : Ctx) (tx : TxData) (keys_changed : List Key) :
    Except Unit Bool :=
  match tx with
  | TxData.noData => Except.error ()
  | TxData.undecodable => Except.error ()
  | TxData.decoded transfer =>
    match ctx.pending_pre transfer with
    | Read.value _ => Except.ok false
    | Read.err => Except.error ()
    | Read.absent =>
      if keys_changed.any (fun k =>
          is_bridge_pool_key k && !decide (k = get_pending_key transfer))
      then Except.ok false
      else
        match ctx.pending_post transfer with
        | Read.err => Except.error ()
        | Read.absent => Except.error ()
        | Read.value pending =>
          if pending ≠ transfer then Except.ok false
          else
            match read_native_erc20_address ctx with
            | Except.error e => Except.error e
            | Except.ok wnam_address =>
              match determine_escrow_checks ctx wnam_address transfer with
              | Except.error e => Except.error e
              | Except.ok escrow_checks =>
                if !(escrow_checks.validate keys_changed) then
                  Except.ok false
                else
                  match check_gas_escrow ctx wnam_address transfer
                      escrow_checks.gas_check with
                  | Except.error e => Except.error e
                  | Except.ok gas_ok =>
                    if !gas_ok then Except.ok false
                    else if transfer.transfer.asset = wnam_address then
                      check_wnam_escrow ctx wnam_address transfer
                        escrow_checks.token_check
                    else
                      check_escrowed_toks ctx escrow_checks.token_check

/-- Concrete context for the C1 witness: a payer debited by 60 and an
escrow account credited by 20. -/
def ctxC1 : Ctx where
  native_token := Address.Established 100
  balance_pre := fun _ own =>
    if own = Address.Established 1 then Read.value 100
    else if own = Address.Established 2 then Read.value 5
    else Read.absent
  balance_post := fun _ own =>
    if own = Address.Established 1 then Read.value 40
    else if own = Address.Established 2 then Read.value 25
    else Read.absent
  pending_pre := fun _ => Read.absent
  pending_post := fun _ => Read.absent
  whitelisted_pre := fun _ => Read.absent
  cap_pre := fun _ => Read.absent
  native_erc20 := Read.absent

/-- Concrete escrow leg for the C1 witness. -/
def deltaC1 : EscrowDelta where
  token := wrapped_erc20s_token ⟨3⟩
  payer_account := Address.Established 1
  escrow_account := Address.Established 2
  expected_debit := 60
  expected_credit := 20
  transferred_amount := 20

/-- Context whose pre-state balance reads fail while post-state balance
reads succeed (C8 counterexample). -/
def preErrCtx : Ctx where
  native_token := Address.Established 0
  balance_pre := fun _ _ => Read.err
  balance_post := fun _ _ => Read.value 5
  pending_pre := fun _ => Read.absent
  pending_post := fun _ => Read.absent
  whitelisted_pre := fun _ => Read.absent
  cap_pre := fun _ => Read.absent
  native_erc20 := Read.absent

/-- Context in which the payer's balance resolves to a `Positive` delta
while the escrow account's post-state balance is unreadable
(C3 counterexample). -/
def unresolvedCtx : Ctx where
  native_token := Address.Established 0
  balance_pre := fun _ _ => Read.value 0
  balance_post := fun _ own =>
    if own = Address.Established 1 then Read.value 10 else Read.err
  pending_pre := fun _ => Read.absent
  pending_post := fun _ => Read.absent
  whitelisted_pre := fun _ => Read.absent
  cap_pre := fun _ => Read.absent
  native_erc20 := Read.absent

/-- Escrow leg used for the C3 counterexample: payer `Established 1`
(delta `Positive 10`), escrow `Established 2` (unresolvable). -/
def unresolvedDelta : EscrowDelta where
  token := wrapped_erc20s_token ⟨3⟩
  payer_account := Address.Established 1
  escrow_account := Address.Established 2
  expected_debit := 10
  expected_credit := 10
  transferred_amount := 10

/-- Transfer used by the C2 witness: same payer and token for gas and
value, so both legs collapse to a combined amount of 1100. -/
def tC2 : PendingTransfer where
  transfer :=
    { kind := TransferToEthereumKind.Erc20, asset := ⟨1⟩,
      recipient := ⟨7⟩, sender := Address.Established 0, amount := 1000 }
  gas_fee :=
    { token := wrapped_erc20s_token ⟨1⟩, amount := 100,
      payer := Address.Established 0 }

/-- Context used by the C2 witness: the pool entry is written but no
balance key is touched. -/
def ctxC2 : Ctx where
  native_token := Address.Established 100
  balance_pre := fun _ _ => Read.absent
  balance_post := fun _ _ => Read.absent
  pending_pre := fun _ => Read.absent
  pending_post := fun p => Read.value p
  whitelisted_pre := fun _ => Read.absent
  cap_pre := fun _ => Read.absent
  native_erc20 := Read.value ⟨99⟩

/-- The escrow checks classified for `tC2` (combined debit and credit of
1100 on both legs). -/
def checksC2 : EscrowCheck where
  gas_check :=
    { token := wrapped_erc20s_token ⟨1⟩
      payer_account := Address.Established 0
      escrow_account := BRIDGE_POOL_ADDRESS
      expected_debit := 1100
      expected_credit := 1100
      transferred_amount := 100 }
  token_check :=
    { token := wrapped_erc20s_token ⟨1⟩
      payer_account := Address.Established 0
      escrow_account := BRIDGE_POOL_ADDRESS
      expected_debit := 1100
      expected_credit := 1100
      transferred_amount := 1000 }

/-- Context for the C6 witness: wNAM whitelisted with cap 10000, payer
debited by 100, bridge escrow credited from 900 to 1000. -/
def ctxC6 : Ctx where
  native_token := Address.Established 100
  balance_pre := fun _ own =>
    if own = Address.Established 0 then Read.value 1000
    else if own = BRIDGE_ADDRESS then Read.value 900
    else Read.absent
  balance_post := fun _ own =>
    if own = Address.Established 0 then Read.value 900
    else if own = BRIDGE_ADDRESS then Read.value 1000
    else Read.absent
  pending_pre := fun _ => Read.absent
  pending_post := fun _ => Read.absent
  whitelisted_pre := fun a => if a = ⟨99⟩ then Read.value true else Read.absent
  cap_pre := fun a => if a = ⟨99⟩ then Read.value 10000 else Read.absent
  native_erc20 := Read.value ⟨99⟩

/-- Value leg for the C6 witness: 100 native tokens from the sender into
the Ethereum bridge escrow. -/
def dC6 : EscrowDelta where
  token := Address.Established 100
  payer_account := Address.Established 0
  escrow_account := BRIDGE_ADDRESS
  expected_debit := 100
  expected_credit := 100
  transferred_amount := 100

/-- Transfer for the C6 witness: an ERC20-kind wNAM transfer. -/
def tC6 : PendingTransfer where
  transfer :=
    { kind := TransferToEthereumKind.Erc20, asset := ⟨99⟩,
      recipient := ⟨7⟩, sender := Address.Established 0, amount := 100 }
  gas_fee :=
    { token := Address.Established 100, amount := 100,
      payer := Address.Established 0 }

/-- Transfer for the C9 witness: `tC2` with a zero gas fee amount. -/
def tC9 : PendingTransfer :=
  { tC2 with gas_fee := { tC2.gas_fee with amount := 0 } }

/-! ## Helper lemmas -/

/-- Key-presence characterisation of `EscrowDelta.validate`. -/
theorem EscrowDelta.validate_iff (d : EscrowDelta) (keys : List Key) :
    d.validate keys = true ↔
      (if d.transferred_amount = 0 then
        balance_key d.token d.payer_account ∉ keys ∧
        balance_key d.token d.escrow_account ∉ keys
      else
        balance_key d.token d.payer_account ∈ keys ∧
        balance_key d.token d.escrow_account ∈ keys) := by
  unfold EscrowDelta.validate EscrowDelta.transferred_amount_is_nil
    EscrowDelta.check_escrow_keys_changed
    EscrowDelta.check_escrow_keys_unchanged
  split <;> simp_all

/-- Propositional characterisation of `same_debited_address`. -/
theorem same_debited_address_iff (ctx : Ctx) (wnam : EthAddress)
    (t : PendingTransfer) :
    same_debited_address ctx wnam t = true ↔
      (t.gas_fee.payer = t.transfer.sender ∧
       ((t.gas_fee.token = ctx.native_token ∧ t.transfer.asset = wnam) ∨
        t.token_address = t.gas_fee.token)) := by
  simp [same_debited_address]

/-- Propositional characterisation of `same_credited_address`. -/
theorem same_credited_address_iff (t : PendingTransfer) :
    same_credited_address t = true ↔ t.token_address = t.gas_fee.token := by
  simp [same_credited_address]

/-- C1: when both balance deltas of an escrow leg are resolvable, the
balance check `check_escrowed_toks` succeeds iff the payer's delta is
`Negative` of exactly the expected debit and the escrow account's delta
is `Positive` of exactly the expected credit; a `Positive` payer delta or
a `Negative` escrow delta always yields the verdict `false`, never an
error. -/
theorem check_escrowed_toks_resolved
    (ctx : Ctx) (d : EscrowDelta) (dd cd : AmountDelta)
    (hd : account_balance_delta ctx d.token d.payer_account = some dd)
    (hc : account_balance_delta ctx d.token d.escrow_account = some cd) :
    (check_escrowed_toks ctx d = Except.ok true ↔
      (dd.delta = SignedAmount.Negative d.expected_debit ∧
       cd.delta = SignedAmount.Positive d.expected_credit)) ∧
    (∀ a, dd.delta = SignedAmount.Positive a →
       check_escrowed_toks ctx d = Except.ok false) ∧
    (∀ a, cd.delta = SignedAmount.Negative a →
       check_escrowed_toks ctx d = Except.ok false) := by
  obtain ⟨db, dds⟩ := dd
  obtain ⟨cb, cds⟩ := cd
  cases dds <;> cases cds <;>
    simp only [check_escrowed_toks, check_escrowed_toks_balance, hd, hc,
      Except.map, SignedAmount.Positive.injEq, SignedAmount.Negative.injEq] <;>
    constructor <;>
    simp_all

/-- C1 witness: the characterisation applied at a concrete leg whose
payer delta is `Negative 60` and escrow delta is `Positive 20`. -/
theorem check_escrowed_toks_resolved_witness :
    check_escrowed_toks ctxC1 deltaC1 = Except.ok true :=
  ((check_escrowed_toks_resolved ctxC1 deltaC1
      { base := 100, delta := SignedAmount.Negative 60 }
      { base := 5, delta := SignedAmount.Positive 20 } rfl rfl).1).mpr
    ⟨rfl, rfl⟩

/-- C7: a value already present in pre-state at the transfer's canonical
pending key makes `validate_tx` return `Ok(false)` regardless of the
rest of the transaction, while a storage failure reading that key makes
it return an error. -/
theorem duplicate_transfer_rejected
    (ctx : Ctx) (t p : PendingTransfer) (keys : List Key) :
    (ctx.pending_pre t = Read.value p →
       validate_tx ctx (TxData.decoded t) keys = Except.ok false) ∧
    (ctx.pending_pre t = Read.err →
       validate_tx ctx (TxData.decoded t) keys = Except.error ()) := by
  constructor <;> intro h <;> simp [validate_tx, h]

/-- C7 witness: the duplicate-rejection theorem applied at a concrete
context holding the transfer in its pre-state pool. -/
theorem duplicate_transfer_rejected_witness :
    validate_tx { ctxC1 with pending_pre := fun p => Read.value p }
        (TxData.decoded
          { transfer :=
              { kind := TransferToEthereumKind.Erc20, asset := ⟨3⟩,
                recipient := ⟨4⟩, sender := Address.Established 1,
                amount := 20 }
            gas_fee :=
              { token := wrapped_erc20s_token ⟨3⟩, amount := 1,
                payer := Address.Established 1 } }) [] =
      Except.ok false :=
  (duplicate_transfer_rejected _ _ _ []).1 rfl

/-- C8 counterexample: an unreadable pre-state balance also makes
`account_balance_delta` return `none`, even though the post-state
balance resolves — so `none` is not returned exactly when the post-state
balance is missing or unreadable. -/
theorem account_balance_delta_pre_error_counterexample :
    account_balance_delta preErrCtx (Address.Established 1)
        (Address.Established 2) = none ∧
    preErrCtx.balance_post (Address.Established 1) (Address.Established 2) =
      Read.value 5 := ⟨rfl, rfl⟩

/-- C8 (amended): `account_balance_delta` treats a missing pre-state
balance as zero, returns `none` exactly when the pre-state balance is
unreadable or the post-state balance is missing or unreadable, and
otherwise returns the pre-state balance as base with delta
`Negative (pre - post)` when `pre > post` and `Positive (post - pre)`
otherwise, so an unchanged balance is `Positive 0`. -/
theorem account_balance_delta_characterisation
    (ctx : Ctx) (token address : Address) :
    (account_balance_delta ctx token address = none ↔
       ctx.balance_pre token address = Read.err ∨
       ctx.balance_post token address = Read.err ∨
       ctx.balance_post token address = Read.absent) ∧
    (∀ b a, ctx.balance_pre token address = Read.value b →
       ctx.balance_post token address = Read.value a →
       account_balance_delta ctx token address =
         some { base := b
                delta := if b > a then SignedAmount.Negative (b - a)
                         else SignedAmount.Positive (a - b) }) ∧
    (∀ a, ctx.balance_pre token address = Read.absent →
       ctx.balance_post token address = Read.value a →
       account_balance_delta ctx token address =
         some { base := 0, delta := SignedAmount.Positive a }) ∧
    (∀ b, ctx.balance_pre token address = Read.value b →
       ctx.balance_post token address = Read.value b →
       account_balance_delta ctx token address =
         some { base := b, delta := SignedAmount.Positive 0 }) := by
  unfold account_balance_delta readPreBalance readPostBalance
  cases hb : ctx.balance_pre token address <;>
    cases ha : ctx.balance_post token address <;>
    simp_all [Option.bind]

/-- C8 witness: the characterisation applied at a concrete account whose
balance went from 100 to 40, giving delta `Negative 60`. -/
theorem account_balance_delta_characterisation_witness :
    account_balance_delta ctxC1 (wrapped_erc20s_token ⟨3⟩)
        (Address.Established 1) =
      some { base := 100, delta := SignedAmount.Negative 60 } := by
  have h := (account_balance_delta_characterisation ctxC1
      (wrapped_erc20s_token ⟨3⟩) (Address.Established 1)).2.1 100 40 rfl rfl
  simpa using h

/-- C3 counterexample: a pairing whose escrow delta is unresolvable
(`account_balance_delta` returns `none`) nevertheless produces the
verdict `false` rather than an error, because the payer's `Positive`
delta pre-empts the error arm. -/
theorem unresolved_delta_rejects_counterexample :
    account_balance_delta unresolvedCtx unresolvedDelta.token
        unresolvedDelta.escrow_account = none ∧
    check_escrowed_toks unresolvedCtx unresolvedDelta = Except.ok false :=
  ⟨rfl, rfl⟩

/-- C3 (amended): when at least one balance delta of an escrow leg is
unresolvable, the check either rejects with `false` or propagates an
internal error, and it rejects exactly when a rejection arm pre-empts the
error arm: the payer's delta resolved to `Positive`, or the payer's
delta is unresolvable while the escrow's delta resolved to `Negative`;
in every remaining unresolvable pairing an error propagates. -/
theorem unresolved_delta_error_or_preempted_reject
    (ctx : Ctx) (d : EscrowDelta)
    (h : account_balance_delta ctx d.token d.payer_account = none ∨
         account_balance_delta ctx d.token d.escrow_account = none) :
    (check_escrowed_toks ctx d = Except.ok false ∨
     check_escrowed_toks_balance ctx d = Except.error ()) ∧
    (check_escrowed_toks ctx d = Except.ok false ↔
      ((∃ b a, account_balance_delta ctx d.token d.payer_account =
          some { base := b, delta := SignedAmount.Positive a }) ∨
       (account_balance_delta ctx d.token d.payer_account = none ∧
        ∃ b a, account_balance_delta ctx d.token d.escrow_account =
          some { base := b, delta := SignedAmount.Negative a }))) := by
  cases hd : account_balance_delta ctx d.token d.payer_account with
  | none =>
    cases hc : account_balance_delta ctx d.token d.escrow_account with
    | none =>
      simp [check_escrowed_toks, check_escrowed_toks_balance, hd, hc,
        Except.map]
    | some cd =>
      obtain ⟨cb, cds⟩ := cd
      cases cds <;>
        simp [check_escrowed_toks, check_escrowed_toks_balance, hd, hc,
          Except.map]
  | some dd =>
    obtain ⟨db, dds⟩ := dd
    cases hc : account_balance_delta ctx d.token d.escrow_account with
    | none =>
      cases dds <;>
        simp [check_escrowed_toks, check_escrowed_toks_balance, hd, hc,
          Except.map]
    | some cd =>
      simp_all

/-- C3 witness: the amended characterisation applied at the concrete
pairing with a `Positive` payer delta and an unresolvable escrow delta,
yielding the verdict `false`. -/
theorem unresolved_delta_error_or_preempted_reject_witness :
    check_escrowed_toks unresolvedCtx unresolvedDelta = Except.ok false :=
  ((unresolved_delta_error_or_preempted_reject unresolvedCtx
      unresolvedDelta (Or.inr rfl)).2).mpr (Or.inl ⟨0, 10, rfl⟩)

/-- C2: a leg with a nil transferred amount validates only if neither of
its balance keys occurs in the changed-keys set, a leg with a non-zero
transferred amount only if both occur; and when either leg of the escrow
check fails this key-presence test, `validate_tx` returns `Ok(false)`. -/
theorem escrow_leg_key_presence
    (ctx : Ctx) (transfer : PendingTransfer) (keys : List Key)
    (wnam : EthAddress) (checks : EscrowCheck)
    (hpre : ctx.pending_pre transfer = Read.absent)
    (hkeys : keys.any (fun k =>
        is_bridge_pool_key k && !decide (k = get_pending_key transfer)) =
      false)
    (hpost : ctx.pending_post transfer = Read.value transfer)
    (hwnam : ctx.native_erc20 = Read.value wnam)
    (hdet : determine_escrow_checks ctx wnam transfer = Except.ok checks)
    (hval : checks.validate keys = false) :
    (∀ (d : EscrowDelta) (ks : List Key),
       d.validate ks = true ↔
         (if d.transferred_amount = 0 then
           balance_key d.token d.payer_account ∉ ks ∧
           balance_key d.token d.escrow_account ∉ ks
         else
           balance_key d.token d.payer_account ∈ ks ∧
           balance_key d.token d.escrow_account ∈ ks)) ∧
    validate_tx ctx (TxData.decoded transfer) keys = Except.ok false := by
  refine ⟨fun d ks => EscrowDelta.validate_iff d ks, ?_⟩
  simp [validate_tx, hpre, hkeys, read_native_erc20_address, hwnam, hdet,
    hval, hpost]

/-- C2 witness: with no balance key in the changed-keys set, the
non-nil legs fail the key-presence check and `validate_tx` rejects. -/
theorem escrow_leg_key_presence_witness :
    validate_tx ctxC2 (TxData.decoded tC2) [get_pending_key tC2] =
      Except.ok false :=
  (escrow_leg_key_presence ctxC2 tC2 [get_pending_key tC2] ⟨99⟩ checksC2
      rfl rfl rfl rfl rfl rfl).2

/-- C10: an absent whitelist flag for the wrapped-native asset is read
as `false` and rejects the wNAM transfer with the verdict `false`, and
an absent cap is read as zero, so any positive resolved escrow balance
is rejected with `false`; neither missing configuration produces an
error. -/
theorem wnam_missing_config_defaults
    (ctx : Ctx) (wnam : EthAddress) (t : PendingTransfer)
    (d : EscrowDelta) :
    (t.transfer.kind ≠ TransferToEthereumKind.Nut →
       ctx.whitelisted_pre wnam = Read.absent →
       check_wnam_escrow ctx wnam t d = Except.ok false) ∧
    (∀ bal, t.transfer.kind ≠ TransferToEthereumKind.Nut →
       ctx.whitelisted_pre wnam = Read.value true →
       check_escrowed_toks_balance ctx d = Except.ok (some bal) →
       ctx.cap_pre wnam = Read.absent →
       0 < bal.resolve →
       check_wnam_escrow ctx wnam t d = Except.ok false) := by
  constructor
  · intro hk hw
    simp [check_wnam_escrow, readWhitelistedPre, hw, hk]
  · intro bal hk hw hb hc hpos
    simp [check_wnam_escrow, readWhitelistedPre, readCapPre, hw, hb, hc,
      hk, hpos]

/-- C10 witness: the missing-configuration behaviour applied at a
concrete context whose whitelist flag is absent. -/
theorem wnam_missing_config_defaults_witness :
    check_wnam_escrow ctxC1 ⟨99⟩ tC2 deltaC1 = Except.ok false :=
  (wnam_missing_config_defaults ctxC1 ⟨99⟩ tC2 deltaC1).1 (by decide) rfl

/-- C6: a wrapped-native transfer passes `check_wnam_escrow` only if the
whitelist flag read from pre-state is true and the resolved post-state
escrow balance does not exceed the cap read from pre-state; for a fixed
cap, a resolved balance strictly above the cap always yields the verdict
`false` (never an error), and a balance at most the cap with a correct
value leg yields `true`. -/
theorem wnam_cap_check
    (ctx : Ctx) (wnam : EthAddress) (t : PendingTransfer)
    (d : EscrowDelta) :
    (check_wnam_escrow ctx wnam t d = Except.ok true →
       readWhitelistedPre ctx wnam = Except.ok true ∧
       ∃ bal c, check_escrowed_toks_balance ctx d = Except.ok (some bal) ∧
         readCapPre ctx wnam = Except.ok c ∧ bal.resolve ≤ c) ∧
    (∀ bal c, t.transfer.kind ≠ TransferToEthereumKind.Nut →
       ctx.whitelisted_pre wnam = Read.value true →
       check_escrowed_toks_balance ctx d = Except.ok (some bal) →
       ctx.cap_pre wnam = Read.value c →
       (bal.resolve > c →
          check_wnam_escrow ctx wnam t d = Except.ok false) ∧
       (bal.resolve ≤ c →
          check_wnam_escrow ctx wnam t d = Except.ok true)) := by
  constructor
  · intro h
    by_cases hk : t.transfer.kind = TransferToEthereumKind.Nut
    · simp [check_wnam_escrow, hk] at h
    · cases hw : ctx.whitelisted_pre wnam with
      | err => simp [check_wnam_escrow, hk, readWhitelistedPre, hw] at h
      | absent => simp [check_wnam_escrow, hk, readWhitelistedPre, hw] at h
      | value b =>
        cases b with
        | false => simp [check_wnam_escrow, hk, readWhitelistedPre, hw] at h
        | true =>
          cases hb : check_escrowed_toks_balance ctx d with
          | error e =>
            simp [check_wnam_escrow, hk, readWhitelistedPre, hw, hb] at h
          | ok ob =>
            cases ob with
            | none =>
              simp [check_wnam_escrow, hk, readWhitelistedPre, hw, hb] at h
            | some bal =>
              cases hc : ctx.cap_pre wnam with
              | err =>
                simp [check_wnam_escrow, hk, readWhitelistedPre, readCapPre,
                  hw, hb, hc] at h
              | absent =>
                refine ⟨by simp [readWhitelistedPre, hw], bal, 0, rfl,
                  by simp [readCapPre, hc], ?_⟩
                by_cases hr : bal.resolve > 0
                · simp [check_wnam_escrow, hk, readWhitelistedPre,
                    readCapPre, hw, hb, hc, hr] at h
                · exact Nat.le_of_not_lt hr
              | value c =>
                refine ⟨by simp [readWhitelistedPre, hw], bal, c, rfl,
                  by simp [readCapPre, hc], ?_⟩
                by_cases hr : bal.resolve > c
                · simp [check_wnam_escrow, hk, readWhitelistedPre,
                    readCapPre, hw, hb, hc, hr] at h
                · exact Nat.le_of_not_lt hr
  · intro bal c hk hw hb hc
    constructor
    · intro hr
      simp [check_wnam_escrow, hk, readWhitelistedPre, hw, hb, readCapPre,
        hc, hr]
    · intro hr
      have hnr : ¬ (bal.resolve > c) := Nat.not_lt.mpr hr
      simp [check_wnam_escrow, hk, readWhitelistedPre, hw, hb, readCapPre,
        hc, hnr]

/-- C6 witness: the cap check applied at the concrete wNAM scenario with
escrowed balance 1000 and cap 10000, which is accepted. -/
theorem wnam_cap_check_witness :
    check_wnam_escrow ctxC6 ⟨99⟩ tC6 dC6 = Except.ok true :=
  ((wnam_cap_check ctxC6 ⟨99⟩ tC6 dC6).2
      { base := 900, delta := SignedAmount.Positive 100 } 10000
      (by decide) rfl rfl rfl).2 (by decide)

/-- Expected debits when gas and tokens are debited from the same address: the overflow-checked combined sum. -/
theorem expected_debits_collapsed (ctx : Ctx) (wnam : EthAddress)
    (t : PendingTransfer) (s : Amount)
    (hsd : same_debited_address ctx wnam t = true)
    (hs : Amount.checked_add t.gas_fee.amount t.transfer.amount = some s) :
    expected_debits ctx wnam t = Except.ok (s, s) := by
  simp [expected_debits, hsd, sum_gas_and_token_amounts, hs]

/-- Expected debits propagate the overflow error of the combined sum. -/
theorem expected_debits_overflow (ctx : Ctx) (wnam : EthAddress)
    (t : PendingTransfer)
    (hsd : same_debited_address ctx wnam t = true)
    (hs : Amount.checked_add t.gas_fee.amount t.transfer.amount = none) :
    expected_debits ctx wnam t = Except.error () := by
  simp [expected_debits, hsd, sum_gas_and_token_amounts, hs]

/-- Expected debits in the independent case: each leg its own amount. -/
theorem expected_debits_independent (ctx : Ctx) (wnam : EthAddress)
    (t : PendingTransfer)
    (hsd : same_debited_address ctx wnam t = false) :
    expected_debits ctx wnam t =
      Except.ok (t.gas_fee.amount, t.transfer.amount) := by
  simp [expected_debits, hsd]

/-- Expected credits when gas and tokens are credited to the same address: the overflow-checked combined sum. -/
theorem expected_credits_collapsed (t : PendingTransfer) (s : Amount)
    (hsc : same_credited_address t = true)
    (hs : Amount.checked_add t.gas_fee.amount t.transfer.amount = some s) :
    expected_credits t = Except.ok (s, s) := by
  simp [expected_credits, hsc, sum_gas_and_token_amounts, hs]

/-- Expected credits propagate the overflow error of the combined sum. -/
theorem expected_credits_overflow (t : PendingTransfer)
    (hsc : same_credited_address t = true)
    (hs : Amount.checked_add t.gas_fee.amount t.transfer.amount = none) :
    expected_credits t = Except.error () := by
  simp [expected_credits, hsc, sum_gas_and_token_amounts, hs]

/-- Expected credits in the independent case: each leg its own amount. -/
theorem expected_credits_independent (t : PendingTransfer)
    (hsc : same_credited_address t = false) :
    expected_credits t =
      Except.ok (t.gas_fee.amount, t.transfer.amount) := by
  simp [expected_credits, hsc]

/-- Closed form of `determine_escrow_checks` when both the debit and credit computations succeed. -/
theorem determine_escrow_checks_ok (ctx : Ctx) (wnam : EthAddress)
    (t : PendingTransfer) (gd td gc tc : Amount)
    (hd : expected_debits ctx wnam t = Except.ok (gd, td))
    (hc : expected_credits t = Except.ok (gc, tc)) :
    determine_escrow_checks ctx wnam t = Except.ok
      { gas_check :=
          { token := t.gas_fee.token
            payer_account := t.gas_fee.payer
            escrow_account := BRIDGE_POOL_ADDRESS
            expected_debit := gd
            expected_credit := gc
            transferred_amount := t.gas_fee.amount }
        token_check :=
          { token := if t.transfer.asset = wnam then ctx.native_token
                     else t.token_address
            payer_account := t.transfer.sender
            escrow_account := if t.transfer.asset = wnam then BRIDGE_ADDRESS
                              else BRIDGE_POOL_ADDRESS
            expected_debit := td
            expected_credit := tc
            transferred_amount := t.transfer.amount } } := by
  by_cases hw : t.transfer.asset = wnam <;>
    simp [determine_escrow_checks, hd, hc, hw]

/-- An overflow in the expected debits propagates out of `determine_escrow_checks`. -/
theorem determine_escrow_checks_err_debits (ctx : Ctx) (wnam : EthAddress)
    (t : PendingTransfer)
    (hd : expected_debits ctx wnam t = Except.error ()) :
    determine_escrow_checks ctx wnam t = Except.error () := by
  simp [determine_escrow_checks, hd]

/-- An overflow in the expected credits propagates out of `determine_escrow_checks`. -/
theorem determine_escrow_checks_err_credits (ctx : Ctx) (wnam : EthAddress)
    (t : PendingTransfer) (gd td : Amount)
    (hd : expected_debits ctx wnam t = Except.ok (gd, td))
    (hc : expected_credits t = Except.error ()) :
    determine_escrow_checks ctx wnam t = Except.error () := by
  simp [determine_escrow_checks, hd, hc]

/-- Inversion for `determine_escrow_checks`: a successful classification is the closed form for some debit and credit amounts. -/
theorem determine_escrow_checks_shape (ctx : Ctx) (wnam : EthAddress)
    (t : PendingTransfer) (checks : EscrowCheck)
    (hdet : determine_escrow_checks ctx wnam t = Except.ok checks) :
    ∃ gd td gc tc,
      expected_debits ctx wnam t = Except.ok (gd, td) ∧
      expected_credits t = Except.ok (gc, tc) ∧
      checks =
        { gas_check :=
            { token := t.gas_fee.token
              payer_account := t.gas_fee.payer
              escrow_account := BRIDGE_POOL_ADDRESS
              expected_debit := gd
              expected_credit := gc
              transferred_amount := t.gas_fee.amount }
          token_check :=
            { token := if t.transfer.asset = wnam then ctx.native_token
                       else t.token_address
              payer_account := t.transfer.sender
              escrow_account := if t.transfer.asset = wnam then
                                  BRIDGE_ADDRESS
                                else BRIDGE_POOL_ADDRESS
              expected_debit := td
              expected_credit := tc
              transferred_amount := t.transfer.amount } } := by
  cases hd : expected_debits ctx wnam t with
  | error e =>
    obtain ⟨⟩ := e
    rw [determine_escrow_checks_err_debits ctx wnam t hd] at hdet
    cases hdet
  | ok p =>
    obtain ⟨gd, td⟩ := p
    cases hc : expected_credits t with
    | error e =>
      obtain ⟨⟩ := e
      rw [determine_escrow_checks_err_credits ctx wnam t gd td hd hc]
        at hdet
      cases hdet
    | ok q =>
      obtain ⟨gc, tc⟩ := q
      rw [determine_escrow_checks_ok ctx wnam t gd td gc tc hd hc] at hdet
      exact ⟨gd, td, gc, tc, rfl, rfl, (Except.ok.injEq _ _ ▸ hdet).symm⟩

/-- A `Negative` delta produced by `account_balance_delta` is always strictly positive: it arises only when the pre-state balance strictly exceeds the post-state balance. -/
theorem account_balance_delta_negative_pos (ctx : Ctx)
    (tok addr : Address) (b a : Amount)
    (h : account_balance_delta ctx tok addr =
      some { base := b, delta := SignedAmount.Negative a }) : 0 < a := by
  unfold account_balance_delta at h
  cases hp : readPreBalance ctx tok addr with
  | none => simp [hp] at h
  | some before =>
    cases hq : readPostBalance ctx tok addr with
    | none => simp [hp, hq] at h
    | some after =>
      simp [hp, hq] at h
      by_cases hlt : before > after
      · simp [hlt] at h
        have := Nat.sub_pos_of_lt hlt
        rw [h.2] at this
        exact this
      · simp [hlt] at h

/-- Inversion for a successful `check_escrowed_toks`: both deltas resolved, the payer delta negative by exactly the expected debit, the escrow delta positive by exactly the expected credit. -/
theorem check_escrowed_toks_ok_true_inv (ctx : Ctx) (d : EscrowDelta)
    (h : check_escrowed_toks ctx d = Except.ok true) :
    ∃ db cb,
      account_balance_delta ctx d.token d.payer_account =
        some { base := db, delta := SignedAmount.Negative d.expected_debit } ∧
      account_balance_delta ctx d.token d.escrow_account =
        some { base := cb,
               delta := SignedAmount.Positive d.expected_credit } := by
  unfold check_escrowed_toks check_escrowed_toks_balance at h
  cases hd : account_balance_delta ctx d.token d.payer_account with
  | none =>
    cases hc : account_balance_delta ctx d.token d.escrow_account with
    | none => simp [hd, hc, Except.map] at h
    | some cd =>
      obtain ⟨cb, cds⟩ := cd
      cases cds <;> simp [hd, hc, Except.map] at h
  | some dd =>
    obtain ⟨db, dds⟩ := dd
    cases hc : account_balance_delta ctx d.token d.escrow_account with
    | none => cases dds <;> simp [hd, hc, Except.map] at h
    | some cd =>
      obtain ⟨cb, cds⟩ := cd
      cases dds <;> cases cds <;> simp [hd, hc, Except.map] at h
      case Negative.Positive da ca =>
        by_cases heq : da = d.expected_debit ∧ ca = d.expected_credit
        · exact ⟨db, cb, by rw [heq.1], by rw [heq.2]⟩
        · simp [heq] at h

/-- A successful `check_escrowed_toks` forces a strictly positive expected debit. -/
theorem check_escrowed_toks_ok_true_debit_pos (ctx : Ctx)
    (d : EscrowDelta) (h : check_escrowed_toks ctx d = Except.ok true) :
    0 < d.expected_debit := by
  obtain ⟨db, cb, hd, hc⟩ := check_escrowed_toks_ok_true_inv ctx d h
  exact account_balance_delta_negative_pos ctx d.token d.payer_account db
    d.expected_debit hd

/-- Inversion for a successful `check_gas_escrow`: the gas token is neither wrapped NAM nor a NUT, and the balance check succeeded. -/
theorem check_gas_escrow_ok_true_inv (ctx : Ctx) (wnam : EthAddress)
    (t : PendingTransfer) (g : EscrowDelta)
    (h : check_gas_escrow ctx wnam t g = Except.ok true) :
    g.token ≠ wrapped_erc20s_token wnam ∧
    isNutAddress g.token = false ∧
    check_escrowed_toks ctx g = Except.ok true := by
  unfold check_gas_escrow at h
  by_cases h1 : g.token = wrapped_erc20s_token wnam
  · simp [h1] at h
  · by_cases h2 : isNutAddress g.token
    · simp [h1, h2] at h
    · refine ⟨h1, by simpa using h2, ?_⟩
      simpa [h1, h2] using h

/-- Inversion for an accepting run of `validate_tx`: the wNAM parameter was read, classification succeeded, the key-presence checks passed, and the gas escrow check succeeded. -/
theorem validate_tx_ok_true_inv (ctx : Ctx) (t : PendingTransfer)
    (keys : List Key)
    (h : validate_tx ctx (TxData.decoded t) keys = Except.ok true) :
    ∃ wnam checks,
      read_native_erc20_address ctx = Except.ok wnam ∧
      determine_escrow_checks ctx wnam t = Except.ok checks ∧
      checks.validate keys = true ∧
      check_gas_escrow ctx wnam t checks.gas_check = Except.ok true := by
  simp only [validate_tx] at h
  cases hp : ctx.pending_pre t with
  | value p => simp [hp] at h
  | err => simp [hp] at h
  | absent =>
    simp only [hp] at h
    by_cases hbp : keys.any (fun k =>
        is_bridge_pool_key k && !decide (k = get_pending_key t)) = true
    · simp [hbp] at h
    · rw [if_neg (by simpa using hbp)] at h
      cases hq : ctx.pending_post t with
      | err => simp [hq] at h
      | absent => simp [hq] at h
      | value pending =>
        simp only [hq] at h
        by_cases hpt : pending = t
        · subst hpt
          rw [if_neg (by simp)] at h
          cases hw : read_native_erc20_address ctx with
          | error e => simp [hw] at h
          | ok wnam =>
            simp only [hw] at h
            cases hdet : determine_escrow_checks ctx wnam pending with
            | error e => simp [hdet] at h
            | ok checks =>
              simp only [hdet] at h
              by_cases hval : checks.validate keys = true
              · rw [if_neg (by simp [hval])] at h
                cases hg : check_gas_escrow ctx wnam pending
                    checks.gas_check with
                | error e => simp [hg] at h
                | ok gas_ok =>
                  simp only [hg] at h
                  cases gas_ok with
                  | false => simp at h
                  | true => exact ⟨wnam, checks, rfl, hdet, hval, hg⟩
              · simp [hval] at h
        · rw [if_pos (by simp [hpt])] at h
          simp at h

/-- C4: when the gas-fee payer equals the transfer sender and the gas
token equals the transfer token (both native, or the same wrapped
ERC20/NUT asset), the classifier sets both expected debits to the
overflow-checked sum of the gas and transfer amounts, erroring (not
rejecting) on overflow; in every other case the expected debits are the
two amounts independently. -/
theorem combined_debit_classification
    (ctx : Ctx) (wnam : EthAddress) (t : PendingTransfer) :
    ((t.gas_fee.payer = t.transfer.sender ∧
        ((t.gas_fee.token = ctx.native_token ∧ t.transfer.asset = wnam) ∨
         t.token_address = t.gas_fee.token)) →
       (∀ s, Amount.checked_add t.gas_fee.amount t.transfer.amount = some s →
          ∃ checks, determine_escrow_checks ctx wnam t = Except.ok checks ∧
            checks.gas_check.expected_debit = s ∧
            checks.token_check.expected_debit = s) ∧
       (Amount.checked_add t.gas_fee.amount t.transfer.amount = none →
          determine_escrow_checks ctx wnam t = Except.error ())) ∧
    (¬(t.gas_fee.payer = t.transfer.sender ∧
        ((t.gas_fee.token = ctx.native_token ∧ t.transfer.asset = wnam) ∨
         t.token_address = t.gas_fee.token)) →
       ∀ checks, determine_escrow_checks ctx wnam t = Except.ok checks →
         checks.gas_check.expected_debit = t.gas_fee.amount ∧
         checks.token_check.expected_debit = t.transfer.amount) := by
  constructor
  · intro hcond
    have hsd : same_debited_address ctx wnam t = true :=
      (same_debited_address_iff ctx wnam t).mpr hcond
    constructor
    · intro s hs
      have hd := expected_debits_collapsed ctx wnam t s hsd hs
      by_cases hsc : same_credited_address t
      · have hc := expected_credits_collapsed t s hsc hs
        exact ⟨_, determine_escrow_checks_ok ctx wnam t s s s s hd hc,
          rfl, rfl⟩
      · have hc := expected_credits_independent t (by simpa using hsc)
        exact ⟨_, determine_escrow_checks_ok ctx wnam t s s
          t.gas_fee.amount t.transfer.amount hd hc, rfl, rfl⟩
    · intro hs
      exact determine_escrow_checks_err_debits ctx wnam t
        (expected_debits_overflow ctx wnam t hsd hs)
  · intro hcond checks hdet
    have hsd : same_debited_address ctx wnam t = false := by
      cases h : same_debited_address ctx wnam t
      · rfl
      · exact absurd ((same_debited_address_iff ctx wnam t).mp h) hcond
    obtain ⟨gd, td, gc, tc, hd, hc, hshape⟩ :=
      determine_escrow_checks_shape ctx wnam t checks hdet
    rw [expected_debits_independent ctx wnam t hsd] at hd
    obtain ⟨h1, h2⟩ := Prod.mk.injEq .. ▸ (Except.ok.injEq .. ▸ hd)
    subst hshape
    exact ⟨h1.symm, h2.symm⟩

/-- C4 witness: the combined-debit classification applied to a concrete
transfer with equal payer and sender paying gas in the transferred
ERC20 token; the debits collapse to 1100. -/
theorem combined_debit_classification_witness :
    ∃ checks,
      determine_escrow_checks ctxC2 ⟨99⟩ tC2 = Except.ok checks ∧
      checks.gas_check.expected_debit = 1100 ∧
      checks.token_check.expected_debit = 1100 :=
  ((combined_debit_classification ctxC2 ⟨99⟩ tC2).1 ⟨rfl, Or.inr rfl⟩).1
    1100 rfl

/-- C5: the classifier combines both expected credits into the sum of
gas and transfer amounts exactly when the gas token and the transfer
token are the same wrapped ERC20/NUT asset, independent of payer and
sender; otherwise each credit is its own amount — in particular with a
native gas token and a wNAM asset the debits combine while the credits
stay independent. -/
theorem combined_credit_classification
    (ctx : Ctx) (wnam : EthAddress) (t : PendingTransfer) :
    (t.token_address = t.gas_fee.token →
       ∀ s, Amount.checked_add t.gas_fee.amount t.transfer.amount = some s →
         ∃ checks, determine_escrow_checks ctx wnam t = Except.ok checks ∧
           checks.gas_check.expected_credit = s ∧
           checks.token_check.expected_credit = s) ∧
    (t.token_address ≠ t.gas_fee.token →
       ∀ checks, determine_escrow_checks ctx wnam t = Except.ok checks →
         checks.gas_check.expected_credit = t.gas_fee.amount ∧
         checks.token_check.expected_credit = t.transfer.amount) ∧
    (t.gas_fee.token = ctx.native_token → t.transfer.asset = wnam →
     t.gas_fee.payer = t.transfer.sender →
     t.token_address ≠ t.gas_fee.token →
       ∀ s, Amount.checked_add t.gas_fee.amount t.transfer.amount = some s →
         determine_escrow_checks ctx wnam t = Except.ok
           { gas_check :=
               { token := t.gas_fee.token
                 payer_account := t.gas_fee.payer
                 escrow_account := BRIDGE_POOL_ADDRESS
                 expected_debit := s
                 expected_credit := t.gas_fee.amount
                 transferred_amount := t.gas_fee.amount }
             token_check :=
               { token := ctx.native_token
                 payer_account := t.transfer.sender
                 escrow_account := BRIDGE_ADDRESS
                 expected_debit := s
                 expected_credit := t.transfer.amount
                 transferred_amount := t.transfer.amount } }) := by
  refine ⟨?_, ?_, ?_⟩
  · intro hsc s hs
    have hcred := expected_credits_collapsed t s
      ((same_credited_address_iff t).mpr hsc) hs
    by_cases hsd : same_debited_address ctx wnam t
    · have hd := expected_debits_collapsed ctx wnam t s hsd hs
      exact ⟨_, determine_escrow_checks_ok ctx wnam t s s s s hd hcred,
        rfl, rfl⟩
    · have hd := expected_debits_independent ctx wnam t (by simpa using hsd)
      exact ⟨_, determine_escrow_checks_ok ctx wnam t t.gas_fee.amount
        t.transfer.amount s s hd hcred, rfl, rfl⟩
  · intro hsc checks hdet
    have hscb : same_credited_address t = false := by
      simp [same_credited_address, hsc]
    obtain ⟨gd, td, gc, tc, hd, hc, hshape⟩ :=
      determine_escrow_checks_shape ctx wnam t checks hdet
    rw [expected_credits_independent t hscb] at hc
    obtain ⟨h1, h2⟩ := Prod.mk.injEq .. ▸ (Except.ok.injEq .. ▸ hc)
    subst hshape
    exact ⟨h1.symm, h2.symm⟩
  · intro hg hw hp hsc s hs
    have hsd : same_debited_address ctx wnam t = true :=
      (same_debited_address_iff ctx wnam t).mpr ⟨hp, Or.inl ⟨hg, hw⟩⟩
    have hscb : same_credited_address t = false := by
      simp [same_credited_address, hsc]
    have hd := expected_debits_collapsed ctx wnam t s hsd hs
    have hc := expected_credits_independent t hscb
    have := determine_escrow_checks_ok ctx wnam t s s
      t.gas_fee.amount t.transfer.amount hd hc
    simpa [hw] using this

/-- C5 witness: the credit classification applied to a concrete wNAM
transfer whose gas is paid in the native token by the sender: the
debits collapse to 200 while the credits stay at 100 each. -/
theorem combined_credit_classification_witness :
    determine_escrow_checks ctxC6 ⟨99⟩ tC6 = Except.ok
      { gas_check :=
          { token := Address.Established 100
            payer_account := Address.Established 0
            escrow_account := BRIDGE_POOL_ADDRESS
            expected_debit := 200
            expected_credit := 100
            transferred_amount := 100 }
        token_check :=
          { token := Address.Established 100
            payer_account := Address.Established 0
            escrow_account := BRIDGE_ADDRESS
            expected_debit := 200
            expected_credit := 100
            transferred_amount := 100 } } :=
  (combined_credit_classification ctxC6 ⟨99⟩ tC6).2.2 rfl rfl rfl
    (by decide) 200 rfl

/-- C9: a pending transfer whose gas fee amount is zero is never
accepted by `validate_tx`: in the independent case the gas leg's
expected debit of zero cannot be met by a strictly negative balance
delta, and in the collapsed case either the gas token is the wrapped
NAM or a NUT token (both rejected), or the zero-amount gas leg's
key-absence requirement contradicts the non-zero value leg's
key-presence requirement on the same balance key. -/
theorem zero_gas_fee_never_accepted (ctx : Ctx) (t : PendingTransfer)
    (keys : List Key) (hz : t.gas_fee.amount = 0) :
    validate_tx ctx (TxData.decoded t) keys ≠ Except.ok true := by
  intro h
  obtain ⟨wnam, checks, hw, hdet, hval, hgas⟩ :=
    validate_tx_ok_true_inv ctx t keys h
  obtain ⟨gd, td, gc, tc, hd, hc, hshape⟩ :=
    determine_escrow_checks_shape ctx wnam t checks hdet
  subst hshape
  obtain ⟨hne, hnut, hesc⟩ :=
    check_gas_escrow_ok_true_inv ctx wnam t _ hgas
  have hpos : 0 < gd :=
    check_escrowed_toks_ok_true_debit_pos ctx _ hesc
  cases hsd : same_debited_address ctx wnam t with
  | false =>
    rw [expected_debits_independent ctx wnam t hsd] at hd
    obtain ⟨h1, h2⟩ := Prod.mk.injEq .. ▸ (Except.ok.injEq .. ▸ hd)
    have hpos2 : 0 < t.gas_fee.amount := h1 ▸ hpos
    rw [hz] at hpos2
    exact Nat.lt_irrefl 0 hpos2
  | true =>
    have hsum : ∃ s,
        Amount.checked_add t.gas_fee.amount t.transfer.amount = some s ∧
        gd = s ∧ td = s := by
      cases hs : Amount.checked_add t.gas_fee.amount t.transfer.amount with
      | none =>
        rw [expected_debits_overflow ctx wnam t hsd hs] at hd
        cases hd
      | some s =>
        rw [expected_debits_collapsed ctx wnam t s hsd hs] at hd
        obtain ⟨h1, h2⟩ := Prod.mk.injEq .. ▸ (Except.ok.injEq .. ▸ hd)
        exact ⟨s, rfl, h1.symm, h2.symm⟩
    obtain ⟨s, hs, hgd, htd⟩ := hsum
    have hsx : s = t.transfer.amount := by
      rw [hz] at hs
      unfold Amount.checked_add at hs
      split at hs
      · injection hs with hs2
        rw [← hs2, Nat.zero_add]
      · cases hs
    have htp : 0 < t.transfer.amount := by
      have hpos2 : 0 < s := hgd ▸ hpos
      rw [hsx] at hpos2
      exact hpos2
    have htamne : t.transfer.amount ≠ 0 := Nat.pos_iff_ne_zero.mp htp
    obtain ⟨hp, hdisj⟩ := (same_debited_address_iff ctx wnam t).mp hsd
    have hval2 := hval
    simp only [EscrowCheck.validate, Bool.and_eq_true] at hval2
    obtain ⟨hvg, hvt⟩ := hval2
    have hg1 := (EscrowDelta.validate_iff _ keys).mp hvg
    have ht1 := (EscrowDelta.validate_iff _ keys).mp hvt
    simp only [hz, if_pos] at hg1
    simp [htamne] at ht1
    by_cases hA : t.token_address = t.gas_fee.token
    · by_cases haw : t.transfer.asset = wnam
      · cases hkind : t.transfer.kind with
        | Erc20 =>
          apply hne
          show t.gas_fee.token = wrapped_erc20s_token wnam
          rw [← hA]
          simp [PendingTransfer.token_address, hkind, haw]
        | Nut =>
          have hnut2 : isNutAddress t.gas_fee.token = false := hnut
          rw [← hA] at hnut2
          simp [PendingTransfer.token_address, hkind, isNutAddress,
            wrapped_erc20s_nut] at hnut2
      · simp only [haw, if_neg] at ht1
        have hmem : balance_key t.gas_fee.token t.gas_fee.payer ∈ keys := by
          rw [hp, ← hA]
          exact ht1.1
        exact hg1.1 hmem
    · obtain ⟨hg, haw⟩ := hdisj.resolve_right hA
      simp only [haw, if_pos] at ht1
      have hmem : balance_key t.gas_fee.token t.gas_fee.payer ∈ keys := by
        rw [hp, hg]
        exact ht1.1
      exact hg1.1 hmem

/-- C9 witness: the zero-gas-fee theorem applied at a concrete transfer
whose gas fee amount is zero. -/
theorem zero_gas_fee_never_accepted_witness :
    validate_tx ctxC2 (TxData.decoded tC9) [] ≠ Except.ok true :=
  zero_gas_fee_never_accepted ctxC2 tC9 [] rfl

end BridgePool
